import Mathlib

/-!
Shallow embedding of the credit-approval decision engine of the
`credit_approval_system` repository (`app/views.py`, `app/models.py`):
the EMI calculator `calculate_emi`, the credit scorer `credit_score`,
the interest-rate correction tiers, and the two decision flows
`CheckEligibility.post` and `CreateLoan.post`.

Python floats are modelled by `ℚ` (all quantities appearing in the claims
are exact decimal values); Python ints by `ℤ`/`ℕ`.  `int()` truncation and
`round()` (round-half-to-even) are modelled explicitly.  Division by zero,
which raises `ZeroDivisionError` in Python, is modelled in the `_py`
variants, which return `Except String`; the total `ℚ`-valued functions are
used for claims whose hypotheses keep the tenure positive.
-/

namespace CreditApproval

/-- Calendar date, as stored in the `Loan` model's `start_date` and
`end_date` fields. -/
structure Date where
  year : ℤ
  month : ℤ
  day : ℤ
deriving DecidableEq

/-- Gregorian leap-year test, needed to clamp the day of month in
`dateutil`-style month arithmetic. -/
def isLeapYear (y : ℤ) : Bool :=
  (y % 4 == 0 && y % 100 != 0) || y % 400 == 0

/-- Number of days of a month of a given year. -/
def daysInMonth (y m : ℤ) : ℤ :=
  if m = 2 then (if isLeapYear y then 29 else 28)
  else if m = 4 ∨ m = 6 ∨ m = 9 ∨ m = 11 then 30
  else 31

/-- Month addition with day-of-month clamping, modelling
`start_date + relativedelta(months=tenure)` in `CreateLoan.post`. -/
def addMonths (d : Date) (n : ℕ) : Date :=
  let total : ℤ := d.month - 1 + n
  let y : ℤ := d.year + total / 12
  let m : ℤ := total % 12 + 1
  { year := y, month := m, day := min d.day (daysInMonth y m) }

/-- The `Loan` model (`app/models.py`): one historical loan record of a
customer.  `emis_paid_on_time` and `tenure` are the model's integer fields;
the data model constrains them to be non-negative, so they are `ℕ` here. -/
structure Loan where
  loan_amount : ℚ
  tenure : ℕ
  interest_rate : ℚ
  monthly_payment : ℚ
  emis_paid_on_time : ℕ
  start_date : Date
  end_date : Date
deriving DecidableEq

/-- The `Customer` model restricted to the fields the decision engine
reads, together with the customer's loan history (`customer.loans.all()`). -/
structure Customer where
  monthly_income : ℚ
  approved_limit : ℚ
  loans : List Loan
deriving DecidableEq

/-- `calculate_emi` (`views.py` lines 10-26): EMI by the compound-interest
formula, or simple division when the annual rate is zero.  Total version
with a positive-by-hypothesis tenure; the caller-facing Python semantics
including `ZeroDivisionError` is `calculate_emi_py` below. -/
def calculate_emi (principal annual_rate : ℚ) (tenure_months : ℕ) : ℚ :=
  if annual_rate = 0 then principal / tenure_months
  else
    let r := annual_rate / 100 / 12
    principal * r * ((1 + r) ^ tenure_months) / ((1 + r) ^ tenure_months - 1)

/-- `total_loans = loans.count()` in `credit_score`. -/
def total_loans (c : Customer) : ℕ := c.loans.length

/-- `current_emis = sum([loan.monthly_payment for loan in loans])`. -/
def current_emis (c : Customer) : ℚ := (c.loans.map Loan.monthly_payment).sum

/-- `total_emis = sum([loan.tenure for loan in loans])`. -/
def total_emis (c : Customer) : ℕ := (c.loans.map Loan.tenure).sum

/-- `on_time_emis = sum([loan.emis_paid_on_time for loan in loans])`. -/
def on_time_emis (c : Customer) : ℕ := (c.loans.map Loan.emis_paid_on_time).sum

/-- `payment_score = (on_time_emis / total_emis if total_emis > 0 else 1) * 50`. -/
def payment_score (c : Customer) : ℚ :=
  (if 0 < total_emis c then (on_time_emis c : ℚ) / (total_emis c : ℚ) else 1) * 50

/-- Loan-count score (`views.py` lines 63-68). -/
def loan_count_score (c : Customer) : ℚ :=
  if total_loans c ≤ 3 then 30
  else if total_loans c ≤ 5 then 20
  else 10

/-- `total_loan_amount = sum([loan.loan_amount for loan in loans])`. -/
def total_loan_amount (c : Customer) : ℚ := (c.loans.map Loan.loan_amount).sum

/-- Loan-volume score (`views.py` lines 71-77). -/
def volume_score (c : Customer) : ℚ :=
  if total_loan_amount c ≤ c.approved_limit * (1 / 2) then 20
  else if total_loan_amount c ≤ c.approved_limit then 10
  else 5

/-- Python's `int()` applied to a rational: truncation toward zero. -/
def int_trunc (q : ℚ) : ℤ := if 0 ≤ q then ⌊q⌋ else ⌈q⌉

/-- `credit_score` (`views.py` lines 29-80). -/
def credit_score (c : Customer) : ℤ :=
  if c.loans = [] then 100
  else if c.monthly_income * (1 / 2) < current_emis c then 0
  else if total_emis c = 0 then 100
  else int_trunc (min (payment_score c + loan_count_score c + volume_score c) 100)

/-- The interest-rate correction tiers, shared verbatim by
`CheckEligibility.post` (lines 132-143) and `CreateLoan.post`
(lines 207-215): returns the corrected rate and the approval flag.
In the rejection tier the code leaves `corrected_interest_rate` at the
requested rate. -/
def correct_rate (score : ℤ) (rate : ℚ) : ℚ × Bool :=
  if 50 < score then (rate, true)
  else if 30 ≤ score ∧ score ≤ 50 then (max rate 12, true)
  else if 10 ≤ score ∧ score < 30 then (max rate 16, true)
  else (rate, false)

/-- Python's `round()` to an integer: round half to even. -/
def py_round (q : ℚ) : ℤ :=
  if q - ⌊q⌋ < 1 / 2 then ⌊q⌋
  else if 1 / 2 < q - ⌊q⌋ then ⌊q⌋ + 1
  else if ⌊q⌋ % 2 = 0 then ⌊q⌋ else ⌊q⌋ + 1

/-- Python's `round(q, 2)`: round to two decimal places, half to even. -/
def round2 (q : ℚ) : ℚ := (py_round (q * 100) : ℚ) / 100

/-- The response body of `CheckEligibility.post` (minus the echoed
`customer_id`). -/
structure EligibilityResult where
  approval : Bool
  interest_rate : ℚ
  corrected_interest_rate : ℚ
  tenure : ℕ
  monthly_installment : ℚ
deriving DecidableEq

/-- `CheckEligibility.post` (`views.py` lines 114-172) after input parsing
and customer lookup: score, rate correction, EMI from the corrected rate,
affordability gate, and the final response with the installment rounded to
two decimals. -/
def check_eligibility (c : Customer) (loan_amount interest_rate : ℚ)
    (tenure : ℕ) : EligibilityResult :=
  let score := credit_score c
  let rc := correct_rate score interest_rate
  let corrected_interest_rate := rc.1
  if rc.2 then
    let monthly_installment := calculate_emi loan_amount corrected_interest_rate tenure
    let total := current_emis c + monthly_installment
    if c.monthly_income * (1 / 2) < total then
      { approval := false, interest_rate := interest_rate,
        corrected_interest_rate := corrected_interest_rate, tenure := tenure,
        monthly_installment := round2 0 }
    else
      { approval := true, interest_rate := interest_rate,
        corrected_interest_rate := corrected_interest_rate, tenure := tenure,
        monthly_installment := round2 monthly_installment }
  else
    { approval := false, interest_rate := interest_rate,
      corrected_interest_rate := corrected_interest_rate, tenure := tenure,
      monthly_installment := round2 0 }

/-- The response body of `CreateLoan.post` (minus the echoed
`customer_id`). -/
structure CreateLoanResponse where
  loan_id : Option ℕ
  loan_approved : Bool
  message : String
  monthly_installment : ℚ
deriving DecidableEq

/-- `CreateLoan.post` (`views.py` lines 184-265) after input parsing and
customer lookup: the same decision pipeline as `check_eligibility`, plus,
on approval only, the created `Loan` row (second component).  `today` is
`date.today()` and `new_loan_id` the database-generated key. -/
def create_loan (c : Customer) (loan_amount interest_rate : ℚ) (tenure : ℕ)
    (today : Date) (new_loan_id : ℕ) : CreateLoanResponse × Option Loan :=
  let score := credit_score c
  let rc := correct_rate score interest_rate
  let corrected_interest_rate := rc.1
  if rc.2 then
    let monthly_installment := calculate_emi loan_amount corrected_interest_rate tenure
    let total := current_emis c + monthly_installment
    if c.monthly_income * (1 / 2) < total then
      ({ loan_id := none, loan_approved := false,
         message := "Loan rejected: EMIs exceed 50% of monthly income",
         monthly_installment := 0 }, none)
    else
      let start_date := today
      let end_date := addMonths today tenure
      ({ loan_id := some new_loan_id, loan_approved := true,
         message := "Loan approved",
         monthly_installment := round2 monthly_installment },
       some { loan_amount := loan_amount, tenure := tenure,
              interest_rate := corrected_interest_rate,
              monthly_payment := monthly_installment,
              emis_paid_on_time := 0,
              start_date := start_date, end_date := end_date })
  else
    ({ loan_id := none, loan_approved := false,
       message := "Loan rejected due to low credit score",
       monthly_installment := 0 }, none)

/-- `calculate_emi` with Python's actual evaluation semantics on an
arbitrary integer tenure: a zero denominator raises `ZeroDivisionError`
(the code performs no input validation). -/
def calculate_emi_py (principal annual_rate : ℚ) (tenure_months : ℤ) :
    Except String ℚ :=
  if annual_rate = 0 then
    if (tenure_months : ℚ) = 0 then Except.error "ZeroDivisionError"
    else Except.ok (principal / (tenure_months : ℚ))
  else
    let r := annual_rate / 100 / 12
    if (1 + r) ^ tenure_months - 1 = 0 then Except.error "ZeroDivisionError"
    else Except.ok (principal * r * ((1 + r) ^ tenure_months) /
      ((1 + r) ^ tenure_months - 1))

/-- `CheckEligibility.post` with Python's evaluation semantics on an
arbitrary integer tenure: the handler validates nothing beyond customer
existence, so a `ZeroDivisionError` raised inside `calculate_emi`
propagates out of the handler (HTTP 500), modelled as `Except.error`. -/
def check_eligibility_py (c : Customer) (loan_amount interest_rate : ℚ)
    (tenure : ℤ) : Except String (Bool × ℚ × ℚ) :=
  let score := credit_score c
  let rc := correct_rate score interest_rate
  if rc.2 then
    match calculate_emi_py loan_amount rc.1 tenure with
    | Except.error e => Except.error e
    | Except.ok monthly_installment =>
      if c.monthly_income * (1 / 2) < current_emis c + monthly_installment then
        Except.ok (false, rc.1, round2 0)
      else
        Except.ok (true, rc.1, round2 monthly_installment)
  else
    Except.ok (false, rc.1, round2 0)

/-! Concrete fixtures used by the witness theorems. -/

/-- A fixed calendar date. -/
def d0 : Date := { year := 2024, month := 1, day := 15 }

/-- A historical loan whose monthly payment alone exceeds half the income
of `custBurdened` (spec scenario 2). -/
def loanA : Loan :=
  { loan_amount := 10000, tenure := 12, interest_rate := 10,
    monthly_payment := 11000, emis_paid_on_time := 6,
    start_date := d0, end_date := d0 }

/-- A modest historical loan, affordable for `custOk`. -/
def loanB : Loan :=
  { loan_amount := 10000, tenure := 12, interest_rate := 10,
    monthly_payment := 100, emis_paid_on_time := 6,
    start_date := d0, end_date := d0 }

/-- A customer with no loan history (spec scenario 1). -/
def custNew : Customer :=
  { monthly_income := 50000, approved_limit := 1800000, loans := [] }

/-- A customer whose existing EMI burden exceeds half the income. -/
def custBurdened : Customer :=
  { monthly_income := 20000, approved_limit := 700000, loans := [loanA] }

/-- A customer with history and a comfortable EMI burden. -/
def custOk : Customer :=
  { monthly_income := 50000, approved_limit := 1800000, loans := [loanB] }

/-- C2: a customer with non-empty loan history whose summed monthly
payments exceed half the monthly income scores exactly 0, regardless of
any other feature of the history. -/
theorem credit_score_emi_burden_zero (c : Customer) (h1 : c.loans ≠ [])
    (h2 : c.monthly_income * (1 / 2) < current_emis c) : credit_score c = 0 := by
  rw [credit_score, if_neg h1, if_pos h2]

theorem credit_score_emi_burden_zero_witness : credit_score custBurdened = 0 :=
  credit_score_emi_burden_zero custBurdened (by simp [custBurdened])
    (by norm_num [custBurdened, current_emis, loanA])

/-- C3: the rate corrector approves exactly the scores at least 10;
scores above 50 keep the requested rate, scores in [30,50] floor the rate
at 12, scores in [10,30) floor it at 16, and scores below 10 are not
approvable; in particular the boundary scores 30, 50, 10, 29 and 9 land
in the stated tiers. -/
theorem correct_rate_tiers (s : ℤ) (rate : ℚ) :
    ((correct_rate s rate).2 = true ↔ 10 ≤ s)
    ∧ (50 < s → correct_rate s rate = (rate, true))
    ∧ (30 ≤ s ∧ s ≤ 50 → correct_rate s rate = (max rate 12, true))
    ∧ (10 ≤ s ∧ s < 30 → correct_rate s rate = (max rate 16, true))
    ∧ (s < 10 → (correct_rate s rate).2 = false)
    ∧ correct_rate 30 rate = (max rate 12, true)
    ∧ correct_rate 50 rate = (max rate 12, true)
    ∧ correct_rate 10 rate = (max rate 16, true)
    ∧ correct_rate 29 rate = (max rate 16, true)
    ∧ (correct_rate 9 rate).2 = false := by
  refine ⟨?_, ?_, ?_, ?_, ?_, ?_, ?_, ?_, ?_, ?_⟩
  · rw [correct_rate]; split_ifs <;> simp <;> omega
  · intro h; rw [correct_rate, if_pos h]
  · intro h; rw [correct_rate, if_neg (by omega), if_pos h]
  · intro h; rw [correct_rate, if_neg (by omega), if_neg (by omega), if_pos h]
  · intro h
    rw [correct_rate, if_neg (by omega), if_neg (by omega), if_neg (by omega)]
  · rw [correct_rate]; norm_num
  · rw [correct_rate]; norm_num
  · rw [correct_rate]; norm_num
  · rw [correct_rate]; norm_num
  · rw [correct_rate]; norm_num

theorem correct_rate_tiers_witness :
    correct_rate 45 8 = (max 8 12, true) ∧ (correct_rate 9 8).2 = false :=
  ⟨(correct_rate_tiers 45 8).2.2.1 ⟨by norm_num, by norm_num⟩,
   (correct_rate_tiers 9 8).2.2.2.2.1 (by norm_num)⟩

/-- C4: for a positive principal and positive tenure, a zero annual rate
gives exactly `P / n`, and a positive annual rate gives exactly the
compound-interest formula with the monthly rate `ra / 100 / 12`; both
equalities are exact in `ℚ`, i.e. no rounding happens inside
`calculate_emi`. -/
theorem calculate_emi_spec (P ra : ℚ) (n : ℕ) (hP : 0 < P) (hn : 0 < n) :
    calculate_emi P 0 n = P / n
    ∧ (0 < ra → calculate_emi P ra n =
        P * (ra / 100 / 12) * (1 + ra / 100 / 12) ^ n /
          ((1 + ra / 100 / 12) ^ n - 1)) := by
  constructor
  · rw [calculate_emi, if_pos rfl]
  · intro hra
    rw [calculate_emi, if_neg (ne_of_gt hra)]

theorem calculate_emi_spec_witness :
    calculate_emi 100000 0 12 = 100000 / 12
    ∧ calculate_emi 100000 10 12 =
        100000 * (10 / 100 / 12) * (1 + 10 / 100 / 12) ^ 12 /
          ((1 + 10 / 100 / 12) ^ 12 - 1) := by
  have h := calculate_emi_spec 100000 10 12 (by norm_num) (by norm_num)
  exact ⟨h.1, h.2 (by norm_num)⟩

/-! Helper lemmas about the score components, shared by the theorems for
the scoring claims. -/

lemma payment_score_nonneg (c : Customer) : 0 ≤ payment_score c := by
  rw [payment_score]
  split_ifs with h
  · positivity
  · norm_num

lemma loan_count_score_bounds (c : Customer) :
    10 ≤ loan_count_score c ∧ loan_count_score c ≤ 30 := by
  rw [loan_count_score]; split_ifs <;> norm_num

lemma volume_score_bounds (c : Customer) :
    5 ≤ volume_score c ∧ volume_score c ≤ 20 := by
  rw [volume_score]; split_ifs <;> norm_num

lemma score_min_ge_15 (c : Customer) :
    (15 : ℚ) ≤ min (payment_score c + loan_count_score c + volume_score c) 100 := by
  have hps := payment_score_nonneg c
  have hlc := (loan_count_score_bounds c).1
  have hvs := (volume_score_bounds c).1
  exact le_min (by linarith) (by norm_num)

lemma floor_score_min_ge_15 (c : Customer) :
    15 ≤ ⌊min (payment_score c + loan_count_score c + volume_score c) 100⌋ :=
  Int.le_floor.mpr (by exact_mod_cast score_min_ge_15 c)

lemma floor_score_min_le_100 (c : Customer) :
    ⌊min (payment_score c + loan_count_score c + volume_score c) 100⌋ ≤ 100 := by
  have h := Int.floor_le_floor (min_le_right
    (payment_score c + loan_count_score c + volume_score c) (100 : ℚ))
  rwa [show ((100 : ℚ)) = ((100 : ℤ) : ℚ) by norm_num, Int.floor_intCast] at h

lemma credit_score_eq_floor (c : Customer) (h1 : c.loans ≠ [])
    (h2 : ¬ c.monthly_income * (1 / 2) < current_emis c) (h3 : total_emis c ≠ 0) :
    credit_score c =
      ⌊min (payment_score c + loan_count_score c + volume_score c) 100⌋ := by
  have h0 : (0 : ℚ) ≤ min (payment_score c + loan_count_score c + volume_score c) 100 :=
    le_trans (by norm_num) (score_min_ge_15 c)
  rw [credit_score, if_neg h1, if_neg h2, if_neg h3, int_trunc, if_pos h0]

/-- C1: the credit score is always an integer in `[0, 100]`; an empty loan
history scores exactly 100; and along the main branch (non-empty history,
EMI burden within half the income, positive scheduled installments) the
score is the floor of `payment_score + loan_count_score + volume_score`
capped at 100. -/
theorem credit_score_range (c : Customer) :
    (0 ≤ credit_score c ∧ credit_score c ≤ 100)
    ∧ (c.loans = [] → credit_score c = 100)
    ∧ (c.loans ≠ [] → ¬ c.monthly_income * (1 / 2) < current_emis c →
        total_emis c ≠ 0 →
        credit_score c =
          ⌊min (payment_score c + loan_count_score c + volume_score c) 100⌋) := by
  refine ⟨?_, ?_, fun h1 h2 h3 => credit_score_eq_floor c h1 h2 h3⟩
  · by_cases h1 : c.loans = []
    · rw [credit_score, if_pos h1]; norm_num
    · by_cases h2 : c.monthly_income * (1 / 2) < current_emis c
      · rw [credit_score, if_neg h1, if_pos h2]; norm_num
      · by_cases h3 : total_emis c = 0
        · rw [credit_score, if_neg h1, if_neg h2, if_pos h3]; norm_num
        · rw [credit_score_eq_floor c h1 h2 h3]
          have := floor_score_min_ge_15 c
          have := floor_score_min_le_100 c
          omega
  · intro h; rw [credit_score, if_pos h]

theorem credit_score_range_witness :
    (0 ≤ credit_score custNew ∧ credit_score custNew ≤ 100)
    ∧ credit_score custNew = 100
    ∧ credit_score custOk =
        ⌊min (payment_score custOk + loan_count_score custOk + volume_score custOk) 100⌋ :=
  ⟨(credit_score_range custNew).1, (credit_score_range custNew).2.1 rfl,
   (credit_score_range custOk).2.2 (by simp [custOk])
     (by norm_num [custOk, current_emis, loanB])
     (by norm_num [total_emis, custOk, loanB])⟩

/-- C10: with non-empty history, an affordable EMI burden and positive
total scheduled installments force a score of at least 15; scores 1
through 14 are unreachable for any customer; and for non-empty history a
score below 10 happens exactly when the score is 0, i.e. exactly when the
existing EMI burden exceeds half the monthly income. -/
theorem credit_score_gap (c : Customer) (h1 : c.loans ≠ []) :
    (¬ c.monthly_income * (1 / 2) < current_emis c → 0 < total_emis c →
        15 ≤ credit_score c)
    ∧ (credit_score c < 10 ↔ credit_score c = 0)
    ∧ (credit_score c < 10 ↔ c.monthly_income * (1 / 2) < current_emis c)
    ∧ (∀ c' : Customer, ¬ (1 ≤ credit_score c' ∧ credit_score c' ≤ 14)) := by
  have hunreach : ∀ c' : Customer, ¬ (1 ≤ credit_score c' ∧ credit_score c' ≤ 14) := by
    intro c'
    by_cases g1 : c'.loans = []
    · rw [credit_score, if_pos g1]; omega
    · by_cases g2 : c'.monthly_income * (1 / 2) < current_emis c'
      · rw [credit_score, if_neg g1, if_pos g2]; omega
      · by_cases g3 : total_emis c' = 0
        · rw [credit_score, if_neg g1, if_neg g2, if_pos g3]; omega
        · rw [credit_score_eq_floor c' g1 g2 g3]
          have := floor_score_min_ge_15 c'
          omega
  refine ⟨?_, ?_, ?_, hunreach⟩
  · intro h2 h3
    rw [credit_score_eq_floor c h1 h2 (Nat.pos_iff_ne_zero.mp h3)]
    exact floor_score_min_ge_15 c
  · by_cases h2 : c.monthly_income * (1 / 2) < current_emis c
    · rw [credit_score, if_neg h1, if_pos h2]; norm_num
    · by_cases h3 : total_emis c = 0
      · rw [credit_score, if_neg h1, if_neg h2, if_pos h3]; omega
      · rw [credit_score_eq_floor c h1 h2 h3]
        have := floor_score_min_ge_15 c
        omega
  · by_cases h2 : c.monthly_income * (1 / 2) < current_emis c
    · rw [credit_score, if_neg h1, if_pos h2]
      exact iff_of_true (by norm_num) h2
    · by_cases h3 : total_emis c = 0
      · rw [credit_score, if_neg h1, if_neg h2, if_pos h3]
        exact iff_of_false (by norm_num) h2
      · rw [credit_score_eq_floor c h1 h2 h3]
        have := floor_score_min_ge_15 c
        constructor
        · omega
        · intro h; exact absurd h h2

theorem credit_score_gap_witness :
    15 ≤ credit_score custOk
    ∧ (credit_score custOk < 10 ↔ credit_score custOk = 0) :=
  have h := credit_score_gap custOk (by simp [custOk])
  ⟨h.1 (by norm_num [custOk, current_emis, loanB])
     (by norm_num [total_emis, custOk, loanB]), h.2.1⟩

lemma round2_zero : round2 0 = 0 := by
  rw [round2, py_round]
  norm_num

/-- C5: when the rate corrector approves, the installment is computed with
the corrected rate; the affordability gate compares the unrounded
installment plus the existing EMI burden against half the income, and on
breach the response is a rejection with installment 0, otherwise an
approval carrying the corrected rate and the installment rounded to two
decimals only in the response. -/
theorem check_eligibility_flow (c : Customer) (loan_amount interest_rate : ℚ)
    (tenure : ℕ)
    (happ : (correct_rate (credit_score c) interest_rate).2 = true) :
    check_eligibility c loan_amount interest_rate tenure =
      (let corrected := (correct_rate (credit_score c) interest_rate).1
       let emi := calculate_emi loan_amount corrected tenure
       if c.monthly_income * (1 / 2) < current_emis c + emi then
         { approval := false, interest_rate := interest_rate,
           corrected_interest_rate := corrected, tenure := tenure,
           monthly_installment := 0 }
       else
         { approval := true, interest_rate := interest_rate,
           corrected_interest_rate := corrected, tenure := tenure,
           monthly_installment := round2 emi }) := by
  simp only [check_eligibility, happ, if_true]
  split_ifs with h
  · rw [round2_zero]
  · rfl

theorem check_eligibility_flow_witness :
    check_eligibility custNew 100000 10 12 =
      (let corrected := (correct_rate (credit_score custNew) 10).1
       let emi := calculate_emi 100000 corrected 12
       if custNew.monthly_income * (1 / 2) < current_emis custNew + emi then
         { approval := false, interest_rate := 10,
           corrected_interest_rate := corrected, tenure := 12,
           monthly_installment := 0 }
       else
         { approval := true, interest_rate := 10,
           corrected_interest_rate := corrected, tenure := 12,
           monthly_installment := round2 emi }) :=
  check_eligibility_flow custNew 100000 10 12
    (by norm_num [correct_rate, credit_score, custNew])

/-- C6: the eligibility check and the loan creation agree on the whole
decision (approval flag, reported installment), and loan creation persists
a loan record exactly when the shared decision is an approval, the record
carrying the corrected rate of the shared decision. -/
theorem flows_agree (c : Customer) (loan_amount interest_rate : ℚ) (tenure : ℕ)
    (today : Date) (new_loan_id : ℕ) :
    (create_loan c loan_amount interest_rate tenure today new_loan_id).1.loan_approved
        = (check_eligibility c loan_amount interest_rate tenure).approval
    ∧ (create_loan c loan_amount interest_rate tenure today new_loan_id).1.monthly_installment
        = (check_eligibility c loan_amount interest_rate tenure).monthly_installment
    ∧ ((create_loan c loan_amount interest_rate tenure today new_loan_id).2).isSome
        = (check_eligibility c loan_amount interest_rate tenure).approval
    ∧ ((create_loan c loan_amount interest_rate tenure today new_loan_id).2).map
          Loan.interest_rate
        = (if (check_eligibility c loan_amount interest_rate tenure).approval then
             some (check_eligibility c loan_amount interest_rate tenure).corrected_interest_rate
           else none)
    ∧ (check_eligibility c loan_amount interest_rate tenure).corrected_interest_rate
        = (correct_rate (credit_score c) interest_rate).1 := by
  cases hb : (correct_rate (credit_score c) interest_rate).2 with
  | false => simp [create_loan, check_eligibility, hb, round2_zero]
  | true =>
    by_cases h : c.monthly_income * (2 : ℚ)⁻¹ < current_emis c
        + calculate_emi loan_amount (correct_rate (credit_score c) interest_rate).1 tenure
    · simp [create_loan, check_eligibility, hb, h, round2_zero]
    · simp [create_loan, check_eligibility, hb, h]

/-- C7: loan creation stores a new loan record exactly on approval; the
record carries the corrected interest rate, the unrounded computed
installment, zero installments paid on time, start date today and end
date today plus tenure months; on any rejection nothing is stored and the
response has a null loan id and installment 0. -/
theorem create_loan_persists (c : Customer) (loan_amount interest_rate : ℚ)
    (tenure : ℕ) (today : Date) (new_loan_id : ℕ) :
    (create_loan c loan_amount interest_rate tenure today new_loan_id).2
        = (if (create_loan c loan_amount interest_rate tenure today new_loan_id).1.loan_approved
           then some
             { loan_amount := loan_amount, tenure := tenure,
               interest_rate := (correct_rate (credit_score c) interest_rate).1,
               monthly_payment := calculate_emi loan_amount
                 (correct_rate (credit_score c) interest_rate).1 tenure,
               emis_paid_on_time := 0, start_date := today,
               end_date := addMonths today tenure }
           else none)
    ∧ (create_loan c loan_amount interest_rate tenure today new_loan_id).1.loan_id
        = (if (create_loan c loan_amount interest_rate tenure today new_loan_id).1.loan_approved
           then some new_loan_id else none)
    ∧ (create_loan c loan_amount interest_rate tenure today new_loan_id).1.monthly_installment
        = (if (create_loan c loan_amount interest_rate tenure today new_loan_id).1.loan_approved
           then round2 (calculate_emi loan_amount
             (correct_rate (credit_score c) interest_rate).1 tenure)
           else 0) := by
  cases hb : (correct_rate (credit_score c) interest_rate).2 with
  | false => simp [create_loan, hb]
  | true =>
    by_cases h : c.monthly_income * (2 : ℚ)⁻¹ < current_emis c
        + calculate_emi loan_amount (correct_rate (credit_score c) interest_rate).1 tenure
    · simp [create_loan, hb, h]
    · simp [create_loan, hb, h]

/-- C8: the code performs no input validation, so at tenure 0 the
eligibility flow reaches the division by zero inside `calculate_emi` and
raises `ZeroDivisionError` (an unhandled exception) instead of failing
fast with an `InvalidInput` error; the zero-rate branch divides by zero at
tenure 0 as well. -/
theorem tenure_zero_division :
    check_eligibility_py custNew 100000 10 0 = Except.error "ZeroDivisionError"
    ∧ calculate_emi_py 100000 0 0 = Except.error "ZeroDivisionError" := by
  constructor
  · norm_num [check_eligibility_py, calculate_emi_py, credit_score, correct_rate,
      custNew]
  · norm_num [calculate_emi_py]

/-- Present-value annuity factor: the sum of the discount factors of the
`n` monthly payments at monthly rate `r`.  For a positive rate,
`calculate_emi` equals the principal divided by this factor
(`emi_eq_div_annuity`); this is the lever for the monotonicity claim. -/
def annuity (r : ℚ) (n : ℕ) : ℚ := ∑ k ∈ Finset.range n, ((1 + r)⁻¹) ^ (k + 1)

lemma annuity_closed (r : ℚ) (hr : r ≠ 0) (h1 : 1 + r ≠ 0) (n : ℕ) :
    annuity r n = (1 - ((1 + r)⁻¹) ^ n) / r := by
  induction n with
  | zero => simp [annuity]
  | succ n ih =>
    rw [annuity, Finset.sum_range_succ, ← annuity, ih]
    field_simp
    ring

lemma calculate_emi_pos_rate (P ra : ℚ) (n : ℕ) (h : ra ≠ 0) :
    calculate_emi P ra n =
      P * (ra / 100 / 12) * (1 + ra / 100 / 12) ^ n /
        ((1 + ra / 100 / 12) ^ n - 1) := by
  rw [calculate_emi, if_neg h]

lemma emi_eq_div_annuity (P ra : ℚ) (n : ℕ) (hra : 0 < ra) (hn : 0 < n) :
    calculate_emi P ra n = P / annuity (ra / 100 / 12) n := by
  have hr : 0 < ra / 100 / 12 := by positivity
  have h1 : (0 : ℚ) < 1 + ra / 100 / 12 := by linarith
  have hpow : 1 < (1 + ra / 100 / 12) ^ n := one_lt_pow₀ (by linarith) hn.ne'
  rw [calculate_emi_pos_rate P ra n (ne_of_gt hra),
    annuity_closed _ hr.ne' h1.ne', inv_pow]
  set R := ra / 100 / 12 with hR
  set A := (1 + R) ^ n with hA
  have hA0 : (0 : ℚ) < A := lt_trans one_pos hpow
  have hAne : A ≠ 0 := ne_of_gt hA0
  have e1 : 1 - A⁻¹ = (A - 1) / A := by field_simp
  rw [e1, div_div, div_div_eq_mul_div]
  ring

lemma annuity_pos (r : ℚ) (hr : 0 < r) {n : ℕ} (hn : 0 < n) : 0 < annuity r n := by
  apply Finset.sum_pos
  · intro k _
    have h : (0 : ℚ) < (1 + r)⁻¹ := inv_pos.mpr (by linarith)
    positivity
  · exact Finset.nonempty_range_iff.mpr hn.ne'

lemma annuity_lt_of_rate_lt (r₁ r₂ : ℚ) (h₁ : 0 < r₁) (h₁₂ : r₁ < r₂) {n : ℕ}
    (hn : 0 < n) : annuity r₂ n < annuity r₁ n := by
  apply Finset.sum_lt_sum_of_nonempty (Finset.nonempty_range_iff.mpr hn.ne')
  intro k _
  have p₁ : (0 : ℚ) < 1 + r₁ := by linarith
  have p₂ : (0 : ℚ) < 1 + r₂ := by linarith
  have hinv : (1 + r₂)⁻¹ < (1 + r₁)⁻¹ := inv_lt_inv_of_lt p₁ (by linarith)
  exact pow_lt_pow_left hinv (le_of_lt (inv_pos.mpr p₂)) (Nat.succ_ne_zero k)

lemma annuity_lt_of_len_lt (r : ℚ) (hr : 0 < r) {n m : ℕ} (hnm : n < m) :
    annuity r n < annuity r m := by
  have hx : (0 : ℚ) < (1 + r)⁻¹ := inv_pos.mpr (by linarith)
  apply Finset.sum_lt_sum_of_subset (Finset.range_subset.mpr (le_of_lt hnm))
    (Finset.mem_range.mpr hnm) Finset.not_mem_range_self
  · positivity
  · intro j _ _
    positivity

/-- C9: for a positive principal, a positive annual rate and a positive
tenure, the installment strictly increases when the annual rate increases,
and strictly decreases when the tenure increases. -/
theorem calculate_emi_monotone (P r₁ r₂ : ℚ) (n m : ℕ) (hP : 0 < P)
    (h₁ : 0 < r₁) (hn : 0 < n) :
    (r₁ < r₂ → calculate_emi P r₁ n < calculate_emi P r₂ n)
    ∧ (n < m → calculate_emi P r₁ m < calculate_emi P r₁ n) := by
  have hm₁ : 0 < r₁ / 100 / 12 := by positivity
  constructor
  · intro h₁₂
    have h₂ : 0 < r₂ := lt_trans h₁ h₁₂
    rw [emi_eq_div_annuity P r₁ n h₁ hn, emi_eq_div_annuity P r₂ n h₂ hn]
    have hlt : annuity (r₂ / 100 / 12) n < annuity (r₁ / 100 / 12) n :=
      annuity_lt_of_rate_lt _ _ hm₁ (by linarith) hn
    exact div_lt_div_of_pos_left hP (annuity_pos _ (by positivity) hn) hlt
  · intro hnm
    have hm : 0 < m := lt_trans hn hnm
    rw [emi_eq_div_annuity P r₁ n h₁ hn, emi_eq_div_annuity P r₁ m h₁ hm]
    have hlt : annuity (r₁ / 100 / 12) n < annuity (r₁ / 100 / 12) m :=
      annuity_lt_of_len_lt _ hm₁ hnm
    exact div_lt_div_of_pos_left hP (annuity_pos _ hm₁ hn) hlt

theorem calculate_emi_monotone_witness :
    calculate_emi 1000 10 12 < calculate_emi 1000 12 12
    ∧ calculate_emi 1000 10 24 < calculate_emi 1000 10 12 :=
  have h := calculate_emi_monotone 1000 10 12 12 24 (by norm_num) (by norm_num)
    (by norm_num)
  ⟨h.1 (by norm_num), h.2 (by norm_num)⟩

end CreditApproval
